import Mathlib

/-!
Verification of the tambourine-voice dictation pipeline core:
the transcription buffering state machine
(`src/server/processors/transcription_buffer.py`), the LLM cleanup
frame-conversion chain (`src/server/processors/llm_cleanup.py`), and the
client-message protocol parser (`src/server/protocol/messages.py`).

Python values travelling through the transport are modelled by a small
JSON-like type `Jv`; Python `str.strip` is modelled by the structural `pyStrip`;
the pipecat frame types reaching each processor are modelled by a
dedicated inductive per processor file.
-/

namespace Tambourine

mutual

/-- A JSON-like value standing for the untyped Python payloads
(`dict[str, Any]` and nested values) that flow through the transport. -/
inductive Jv where
  | str (s : String)
  | num (n : Int)
  | bool (b : Bool)
  | null
  | arr (xs : JvItems)
  | obj (kvs : JvFields)
deriving DecidableEq

/-- The elements of a JSON array, as a bespoke list (bespoke so that
equality stays derivable). -/
inductive JvItems where
  | nil
  | cons (v : Jv) (rest : JvItems)
deriving DecidableEq

/-- The key/value fields of a JSON object (a Python dict), in insertion
order. -/
inductive JvFields where
  | nil
  | cons (k : String) (v : Jv) (rest : JvFields)
deriving DecidableEq

end

/-- Python `str.strip()` with no argument: remove leading and trailing
whitespace. Written structurally over the character list so that it
evaluates by kernel reduction (Lean's `String.trim` is defined by
well-founded recursion and does not). -/
def pyStrip (s : String) : String :=
  String.mk ((s.data.dropWhile Char.isWhitespace).reverse.dropWhile
    Char.isWhitespace).reverse

/-- Python `dict.get(key)`: the value at `key` if present, else `None`
(here `none`). Lookup takes the first hit. -/
def dictGet (kvs : JvFields) (key : String) : Option Jv :=
  match kvs with
  | .nil => none
  | .cons k v rest => if k = key then some v else dictGet rest key

/-- Python `dict.get(key, default)`: the value at `key` if present, else the
supplied default. -/
def dictGetD (kvs : JvFields) (key : String) (dflt : Jv) : Jv :=
  match dictGet kvs key with
  | some v => v
  | none => dflt

/-! ## Transcription buffer (`transcription_buffer.py`) -/

/-- A pipecat `TranscriptionFrame`: `text`, `user_id`, `timestamp` and an
optional `language` (the pipecat `Language` enum is modelled as a string). -/
structure Fragment where
  text : String
  user_id : String
  timestamp : String
  language : Option String
deriving DecidableEq

/-- The frames reaching `TranscriptionBufferProcessor.process_frame`:
`TranscriptionFrame`, `InputTransportMessageFrame` (carrying an arbitrary
payload), and any other frame (opaque, indexed by a tag). -/
inductive BufFrame where
  | transcription (f : Fragment)
  | inputMsg (message : Jv)
  | other (tag : Nat)
deriving DecidableEq

/-- The mutable state of `TranscriptionBufferProcessor`:
`_buffer`, `_last_user_id`, `_last_language`. -/
structure BufState where
  buffer : String
  last_user_id : String
  last_language : Option String
deriving DecidableEq

/-- The state set up by `TranscriptionBufferProcessor.__init__`. -/
def initBufState : BufState :=
  { buffer := "", last_user_id := "user", last_language := none }

/-- Lines 56–66 of `transcription_buffer.py`: extract `message_type` from an
`InputTransportMessageFrame` payload. `message_type` starts as `None`; if the
payload is a dict whose outer `type` is `"client-message"`, the nested
`data` dict (default `{}`) supplies it via key `t`; otherwise it is the outer
`type` value itself. Non-dict payloads leave it `None`. -/
def extractMessageType (message : Jv) : Option Jv :=
  match message with
  | .obj kvs =>
    match dictGet kvs "type" with
    | some (.str "client-message") =>
      match dictGetD kvs "data" (.obj .nil) with
      | .obj d => dictGet d "t"
      | _ => none
    | outer => outer
  | _ => none

/-- `TranscriptionBufferProcessor.process_frame`, as a function from the
current state and frame to the next state and the list of frames pushed
downstream. `now` stands for `datetime.now(UTC).isoformat()`, used only as
the timestamp of a flushed consolidated frame. -/
def bufProcessFrame (s : BufState) (frame : BufFrame) (now : String) :
    BufState × List BufFrame :=
  match frame with
  | .transcription f =>
    if f.text ≠ "" then
      ({ buffer := s.buffer ++ f.text,
         last_user_id := f.user_id,
         last_language := f.language }, [])
    else
      (s, [])
  | .inputMsg message =>
    let messageType := extractMessageType message
    if messageType = some (.str "start-recording") then
      ({ buffer := "", last_user_id := "user", last_language := none }, [])
    else if messageType = some (.str "stop-recording") then
      if pyStrip s.buffer ≠ "" then
        ({ s with buffer := "" },
         [.transcription
            { text := pyStrip s.buffer,
              user_id := s.last_user_id,
              timestamp := now,
              language := s.last_language }])
      else
        (s, [])
    else
      (s, [frame])
  | .other _ => (s, [frame])

/-- Run the buffer over a list of frames in order, collecting every pushed
frame. All frames share the timestamp source `now`. -/
def bufRun (s : BufState) (frames : List BufFrame) (now : String) :
    BufState × List BufFrame :=
  match frames with
  | [] => (s, [])
  | f :: rest =>
    let r1 := bufProcessFrame s f now
    let r2 := bufRun r1.1 rest now
    (r2.1, r1.2 ++ r2.2)

/-- The concatenation of the fragment texts, in order, no separators. -/
def concatTexts : List Fragment → String
  | [] => ""
  | f :: rest => f.text ++ concatTexts rest

/-- The last fragment of the list whose `text` is non-empty, i.e. the last
fragment whose metadata the buffer records (the buffer saves `user_id` and
`language` exactly when it appends a non-empty `text`). -/
def recordedLast : List Fragment → Option Fragment
  | [] => none
  | f :: rest =>
    match recordedLast rest with
    | some g => some g
    | none => if f.text ≠ "" then some f else none

/-- `user_id` of the last recorded fragment, defaulting to `"user"`. -/
def lastRecordedUserId (frags : List Fragment) : String :=
  match recordedLast frags with
  | some f => f.user_id
  | none => "user"

/-- `language` of the last recorded fragment, defaulting to `none`. -/
def lastRecordedLanguage (frags : List Fragment) : Option String :=
  match recordedLast frags with
  | some f => f.language
  | none => none

/-- The RTVI client control message `{"type": "client-message",
"data": {"t": t, "d": {}}}` documented in `transcription_buffer.py`. -/
def clientControlMsg (t : String) : Jv :=
  .obj (.cons "type" (.str "client-message")
    (.cons "data" (.obj (.cons "t" (.str t) (.cons "d" (.obj .nil) .nil)))
      .nil))

/-- Written from the spec's words, for comparison with the code's
`extractMessageType`: check the nested form first (outer `type` equal to
`client-message`) and extract `data.t` as the signal, falling back to the
outer `type` otherwise (with `data` defaulting to an empty object, and a
non-dict `data` yielding no signal). -/
def specExtractSignal (kvs : JvFields) : Option Jv :=
  if dictGet kvs "type" = some (.str "client-message") then
    match dictGetD kvs "data" (.obj .nil) with
    | .obj d => dictGet d "t"
    | _ => none
  else
    dictGet kvs "type"

/-! ## LLM cleanup converters (`llm_cleanup.py`) -/

/-- The `CLEANUP_SYSTEM_PROMPT` constant of `llm_cleanup.py`, verbatim. -/
def CLEANUP_SYSTEM_PROMPT : String :=
  "You are a dictation cleanup assistant. Your task is to clean up transcribed speech.\n\nRules:\n- Remove filler words (um, uh, like, you know, basically, actually, literally, sort of, kind of)\n- Fix grammar and punctuation\n- Capitalize sentences properly\n- Keep the original meaning and tone intact\n- Do NOT add any new information or change the intent\n- Output ONLY the cleaned text, nothing else - no explanations, no quotes, no prefixes\n\nExample:\nInput: \"um so basically I was like thinking we should uh you know update the readme file\"\nOutput: I was thinking we should update the readme file."

/-- The frames reaching the two converters of `llm_cleanup.py`:
`LLMFullResponseStartFrame`, `LLMFullResponseEndFrame`, `TextFrame`,
`TranscriptionFrame` (a `TextFrame` subclass in pipecat),
`OpenAILLMContextFrame` (its context modelled as the `(role, content)`
message list), `OutputTransportMessageFrame`, and any other frame. -/
inductive CFrame where
  | llmStart
  | llmEnd
  | text (s : String)
  | transcription (f : Fragment)
  | context (messages : List (String × String))
  | output (message : Jv)
  | other (tag : Nat)
deriving DecidableEq

/-- The pipecat `TextFrame.text` attribute, when the frame is a `TextFrame`
(`TranscriptionFrame` included, by subclassing). -/
def frameText : CFrame → Option String
  | .text s => some s
  | .transcription f => some f.text
  | _ => none

/-- `TranscriptionToLLMConverter.process_frame`: stateless, returns the
frames pushed downstream. The Python guard `if text and text.strip():` is
the truthiness of `frame.text` and of its stripped form. -/
def convProcessFrame (frame : CFrame) : List CFrame :=
  match frame with
  | .transcription f =>
    if f.text ≠ "" ∧ pyStrip f.text ≠ "" then
      [.context [("system", CLEANUP_SYSTEM_PROMPT), ("user", f.text)]]
    else
      []
  | _ => [frame]

/-- The mutable state of `LLMResponseToRTVIConverter`:
`_accumulator` and `_is_accumulating`. -/
structure AggState where
  accumulator : String
  is_accumulating : Bool
deriving DecidableEq

/-- The state set up by `LLMResponseToRTVIConverter.__init__`. -/
def initAggState : AggState :=
  { accumulator := "", is_accumulating := false }

/-- The RTVI server message built in `LLMResponseToRTVIConverter`:
`{"label": "rtvi-ai", "type": "server-message",
"data": {"type": "transcript", "text": cleanedText}}`. -/
def rtviTranscriptMessage (cleanedText : String) : Jv :=
  .obj (.cons "label" (.str "rtvi-ai")
    (.cons "type" (.str "server-message")
      (.cons "data"
        (.obj (.cons "type" (.str "transcript")
          (.cons "text" (.str cleanedText) .nil)))
        .nil)))

/-- `LLMResponseToRTVIConverter.process_frame`: next state and pushed
frames. A `TextFrame` is appended only while `_is_accumulating`; otherwise
it falls through to the pass-through push. -/
def aggProcessFrame (s : AggState) (frame : CFrame) : AggState × List CFrame :=
  match frame with
  | .llmStart => ({ accumulator := "", is_accumulating := true }, [])
  | .llmEnd =>
    let cleaned := pyStrip s.accumulator
    ({ accumulator := "", is_accumulating := false },
     if cleaned ≠ "" then [.output (rtviTranscriptMessage cleaned)] else [])
  | frame =>
    match frameText frame with
    | some t =>
      if s.is_accumulating then
        ({ s with accumulator := s.accumulator ++ t }, [])
      else
        (s, [frame])
    | none => (s, [frame])

/-- Run the aggregator over a list of frames in order, collecting every
pushed frame. -/
def aggRun (s : AggState) (frames : List CFrame) : AggState × List CFrame :=
  match frames with
  | [] => (s, [])
  | f :: rest =>
    let r1 := aggProcessFrame s f
    let r2 := aggRun r1.1 rest
    (r2.1, r1.2 ++ r2.2)

/-- The aggregator states reachable from the freshly constructed processor
by processing any sequence of frames. -/
inductive AggReachable : AggState → Prop where
  | init : AggReachable initAggState
  | step (s : AggState) (f : CFrame) :
      AggReachable s → AggReachable (aggProcessFrame s f).1

/-- The aggregator invariant: whenever `_is_accumulating` is false (the
`Closed` state), `_accumulator` is the empty string. -/
def aggInv (s : AggState) : Prop :=
  s.is_accumulating = false → s.accumulator = ""

/-- Concatenation of a list of strings, in order, no separators. -/
def stringConcat : List String → String
  | [] => ""
  | s :: rest => s ++ stringConcat rest

/-! ## Client message protocol (`messages.py`) -/

/-- Modelled from the spec: `protocol/providers.py` is not under `src/`
(only its imports are). The spec describes `STTProviderSelection` and
`LLMProviderSelection` as selections with known variants plus an
`OtherSTTProvider`/`OtherLLMProvider` catch-all that preserves arbitrary
provider names, so a provider value validates exactly when it is a string.
Only the choice between the recognized variant and the `Unknown` fallback
depends on this; no claim does. -/
def providerSelectionValid : Jv → Bool
  | .str _ => true
  | _ => false

/-- The result of `parse_client_message`: one of the four recognized
client-message variants (`_ClientMessageUnion`), or `UnknownClientMessage`
with its `type` string and the full raw payload. -/
inductive ClientMsg where
  | startRecording
  | stopRecording
  | setSTTProvider (provider : Jv)
  | setLLMProvider (provider : Jv)
  | unknown (type : String) (raw : JvFields)
deriving DecidableEq

/-- Pydantic validation of `ClientMessage.model_validate(raw)`: the
discriminated union selects the variant by the `type` field (an exact
`Literal` string), then validates that variant's fields; `none` stands for
a raised `ValidationError`. `set-stt-provider` and `set-llm-provider`
require a `data` dict with a valid `provider`; extra keys are ignored
(pydantic default). -/
def validateClientMessage (raw : JvFields) : Option ClientMsg :=
  match dictGet raw "type" with
  | some (.str "start-recording") => some .startRecording
  | some (.str "stop-recording") => some .stopRecording
  | some (.str "set-stt-provider") =>
    match dictGet raw "data" with
    | some (.obj d) =>
      match dictGet d "provider" with
      | some p => if providerSelectionValid p then some (.setSTTProvider p) else none
      | none => none
    | _ => none
  | some (.str "set-llm-provider") =>
    match dictGet raw "data" with
    | some (.obj d) =>
      match dictGet d "provider" with
      | some p => if providerSelectionValid p then some (.setLLMProvider p) else none
      | none => none
    | _ => none
  | _ => none

/-- `parse_client_message(raw)` of `messages.py`. A `ValidationError` from
`ClientMessage.model_validate` is caught, and the except branch builds
`UnknownClientMessage(type=raw.get("type", ""), raw=raw)`. Constructing
that model validates its fields in turn: its `type: str` field accepts only
a string (pydantic v2 does not coerce `None`, numbers or booleans to
`str`), so a present non-string `type` value makes the constructor itself
raise a `ValidationError`, which is outside the `try` and propagates
(`Except.error`). -/
def parse_client_message (raw : JvFields) : Except String ClientMsg :=
  match validateClientMessage raw with
  | some msg => .ok msg
  | none =>
    match dictGetD raw "type" (.str "") with
    | .str s => .ok (.unknown s raw)
    | _ => .error "ValidationError: UnknownClientMessage.type must be a string"

end Tambourine

namespace Tambourine

/-! ## Helper lemmas -/

/-- Running the buffer over a concatenation of frame lists splits into the
two runs, threading the state and appending the outputs. -/
theorem bufRun_append (xs ys : List BufFrame) (s : BufState) (now : String) :
    bufRun s (xs ++ ys) now =
      ((bufRun (bufRun s xs now).1 ys now).1,
       (bufRun s xs now).2 ++ (bufRun (bufRun s xs now).1 ys now).2) := by
  induction xs generalizing s with
  | nil => simp [bufRun]
  | cons f rest ih => simp [bufRun, ih]

/-- Running the buffer over a list of transcription frames pushes nothing,
appends the concatenated texts to the buffer, and records the metadata of
the last fragment with non-empty text (keeping the prior metadata when
there is none). -/
theorem bufRun_map_transcription (frags : List Fragment) (s : BufState)
    (now : String) :
    bufRun s (frags.map BufFrame.transcription) now =
      ({ buffer := s.buffer ++ concatTexts frags,
         last_user_id := (recordedLast frags).elim s.last_user_id Fragment.user_id,
         last_language := (recordedLast frags).elim s.last_language Fragment.language },
       []) := by
  induction frags generalizing s with
  | nil => simp [bufRun, concatTexts, recordedLast]
  | cons f rest ih =>
    by_cases hf : f.text = ""
    · cases hrl : recordedLast rest <;>
        simp [bufRun, bufProcessFrame, hf, ih, concatTexts, recordedLast, hrl]
    · cases hrl : recordedLast rest <;>
        simp [bufRun, bufProcessFrame, hf, ih, concatTexts, recordedLast, hrl,
          String.append_assoc]

/-- `lastRecordedUserId` through `Option.elim`. -/
theorem lastRecordedUserId_elim (frags : List Fragment) :
    lastRecordedUserId frags = (recordedLast frags).elim "user" Fragment.user_id := by
  cases h : recordedLast frags <;> simp [lastRecordedUserId, h]

/-- `lastRecordedLanguage` through `Option.elim`. -/
theorem lastRecordedLanguage_elim (frags : List Fragment) :
    lastRecordedLanguage frags = (recordedLast frags).elim none Fragment.language := by
  cases h : recordedLast frags <;> simp [lastRecordedLanguage, h]

/-- Running the aggregator over a concatenation of frame lists splits into
the two runs. -/
theorem aggRun_append (xs ys : List CFrame) (s : AggState) :
    aggRun s (xs ++ ys) =
      ((aggRun (aggRun s xs).1 ys).1,
       (aggRun s xs).2 ++ (aggRun (aggRun s xs).1 ys).2) := by
  induction xs generalizing s with
  | nil => simp [aggRun]
  | cons f rest ih => simp [aggRun, ih]

/-- While `Open`, a list of text chunks is appended in order to the
accumulator and pushes nothing. -/
theorem aggRun_texts (chunks : List String) (acc : String) :
    aggRun (AggState.mk acc true) (chunks.map CFrame.text) =
      (AggState.mk (acc ++ stringConcat chunks) true, []) := by
  induction chunks generalizing acc with
  | nil => simp [aggRun, stringConcat]
  | cons c rest ih =>
    simp [aggRun, aggProcessFrame, frameText, ih, stringConcat, String.append_assoc]

/-- The closed-implies-empty invariant holds in the initial state. -/
theorem aggInv_init : aggInv initAggState := fun _ => rfl

/-- Processing any single frame preserves the closed-implies-empty
invariant. -/
theorem aggInv_step (s : AggState) (f : CFrame) (h : aggInv s) :
    aggInv (aggProcessFrame s f).1 := by
  cases f <;> by_cases hacc : s.is_accumulating <;>
    simp_all [aggInv, aggProcessFrame, frameText]

/-- Every reachable aggregator state satisfies the closed-implies-empty
invariant. -/
theorem agg_reachable_closed_empty (s : AggState) (h : AggReachable s) :
    aggInv s := by
  induction h with
  | init => exact aggInv_init
  | step s' f _ ih => exact aggInv_step s' f ih

/-! ## Claims -/

/-- C1: starting from the reset state, buffering fragments `F1..Fn` and
then receiving a stop-recording signal emits exactly one consolidated
transcription frame whose text is the stripped exact concatenation of the
fragment texts (no separators), whose `user_id`/`language` are the last
recorded fragment metadata and whose timestamp is the current time,
provided the stripped concatenation is non-empty; if it is empty, nothing
is emitted. -/
theorem claim_C1_consolidated_flush (frags : List Fragment) (now : String) :
    (pyStrip (concatTexts frags) ≠ "" →
      (bufRun initBufState
        (frags.map BufFrame.transcription ++
          [BufFrame.inputMsg (clientControlMsg "stop-recording")]) now).2 =
      [BufFrame.transcription
        { text := pyStrip (concatTexts frags),
          user_id := lastRecordedUserId frags,
          timestamp := now,
          language := lastRecordedLanguage frags }]) ∧
    (pyStrip (concatTexts frags) = "" →
      (bufRun initBufState
        (frags.map BufFrame.transcription ++
          [BufFrame.inputMsg (clientControlMsg "stop-recording")]) now).2 = []) := by
  rw [bufRun_append, bufRun_map_transcription]
  constructor <;> intro h <;>
    simp [bufRun, bufProcessFrame, extractMessageType, clientControlMsg, dictGet,
      dictGetD, initBufState, h, lastRecordedUserId_elim, lastRecordedLanguage_elim]

/-- Witness for C1: the fragments `"um so "` (alice) and `"thinking"`
(bob) followed by stop-recording yield one consolidated frame with the
stripped concatenated text and the last recorded metadata. -/
theorem witness_C1 :
    (bufRun initBufState
      ([Fragment.mk "um so " "alice" "t1" (some "en"),
        Fragment.mk "thinking" "bob" "t2" none].map BufFrame.transcription ++
        [BufFrame.inputMsg (clientControlMsg "stop-recording")]) "N").2 =
      [BufFrame.transcription
        { text := pyStrip (concatTexts
            [Fragment.mk "um so " "alice" "t1" (some "en"),
             Fragment.mk "thinking" "bob" "t2" none]),
          user_id := lastRecordedUserId
            [Fragment.mk "um so " "alice" "t1" (some "en"),
             Fragment.mk "thinking" "bob" "t2" none],
          timestamp := "N",
          language := lastRecordedLanguage
            [Fragment.mk "um so " "alice" "t1" (some "en"),
             Fragment.mk "thinking" "bob" "t2" none] }] :=
  (claim_C1_consolidated_flush _ "N").1 (by decide)

/-- C2 (code bug evaluation): on the payload having `type` equal to `None`
(`{"type": None}`), `parse_client_message` does not return a message at
all: `ClientMessage.model_validate` raises a `ValidationError` (caught),
and the except branch then constructs
`UnknownClientMessage(type=raw.get("type", ""), raw=raw)` with
`type=None`, whose own pydantic validation of the `type: str` field raises
a `ValidationError` that propagates to the caller. -/
theorem claim_C2_parse_raises_on_null_type :
    parse_client_message (JvFields.cons "type" Jv.null JvFields.nil) =
      Except.error "ValidationError: UnknownClientMessage.type must be a string" := rfl

/-- Counterexample to C3 as stated: a fragment whose text is the single
space (whitespace-only, hence non-empty) is not a no-op — it changes the
buffer state (text appended, metadata recorded). -/
theorem counterexample_C3 :
    ¬ ((bufProcessFrame initBufState
        (BufFrame.transcription (Fragment.mk " " "alice" "t" (some "en"))) "N").1 =
       initBufState) := by decide

/-- C3 (amended): fragment handling is a no-op exactly when the fragment
text is the empty string; any fragment with non-empty text — whitespace-only
included — has its text appended verbatim and its `user_id`/`language`
recorded as the latest metadata, with nothing pushed either way. -/
theorem claim_C3_fragment_append (s : BufState) (f : Fragment) (now : String) :
    (f.text = "" → bufProcessFrame s (BufFrame.transcription f) now = (s, [])) ∧
    (f.text ≠ "" → bufProcessFrame s (BufFrame.transcription f) now =
      ({ buffer := s.buffer ++ f.text, last_user_id := f.user_id,
         last_language := f.language }, [])) := by
  constructor <;> intro h <;> simp [bufProcessFrame, h]

/-- Witness for C3 (amended): the fragment `"hi"` from alice is appended
and its metadata recorded. -/
theorem witness_C3 :
    bufProcessFrame initBufState
      (BufFrame.transcription (Fragment.mk "hi" "alice" "t" none)) "N" =
      ({ buffer := "" ++ "hi", last_user_id := "alice", last_language := none }, []) :=
  (claim_C3_fragment_append initBufState (Fragment.mk "hi" "alice" "t" none) "N").2
    (by decide)

/-- C4: from any aggregator state, a start-marker, text chunks `C1..Cn`
and an end-marker emit exactly one `OutputTransportMessageFrame` wrapping
the stripped in-order concatenation of the chunk texts in the envelope
`label "rtvi-ai"`, `type "server-message"`, `data` of type `transcript` —
or nothing when the stripped concatenation is empty — and leave the
accumulator cleared and closed in either case. -/
theorem claim_C4_aggregated_response (s : AggState) (chunks : List String) :
    aggRun s (CFrame.llmStart :: chunks.map CFrame.text ++ [CFrame.llmEnd]) =
      (initAggState,
       if pyStrip (stringConcat chunks) ≠ "" then
         [CFrame.output (rtviTranscriptMessage (pyStrip (stringConcat chunks)))]
       else []) := by
  have h1 : aggProcessFrame s CFrame.llmStart = (AggState.mk "" true, []) := by
    simp [aggProcessFrame]
  simp only [aggRun, h1, List.append_eq]
  rw [aggRun_append, aggRun_texts]
  simp [aggRun, aggProcessFrame, initAggState]

/-- C5: an end-marker arriving while a reachable aggregator is in the
Closed state is a no-op — nothing is pushed and the state (empty and
closed, by the invariant) is unchanged. -/
theorem claim_C5_premature_end_noop (s : AggState) (h : AggReachable s)
    (hc : s.is_accumulating = false) :
    aggProcessFrame s CFrame.llmEnd = (s, []) := by
  have hacc : s.accumulator = "" := agg_reachable_closed_empty s h hc
  cases s with
  | mk a b =>
    simp only at hacc hc
    subst hacc hc
    simp [aggProcessFrame, pyStrip]

/-- Witness for C5: an end-marker in the initial (closed, empty) state is
a no-op. -/
theorem witness_C5 : aggProcessFrame initAggState CFrame.llmEnd = (initAggState, []) :=
  claim_C5_premature_end_noop initAggState AggReachable.init rfl

/-- C6: for a dict transport payload, the code's extracted signal agrees
with the nested-first extraction rule written from the spec, and a payload
whose extracted signal is neither start-recording nor stop-recording
passes through unchanged with the buffer state untouched. -/
theorem claim_C6_signal_extraction (kvs : JvFields) (s : BufState) (now : String) :
    extractMessageType (.obj kvs) = specExtractSignal kvs ∧
    (extractMessageType (.obj kvs) ≠ some (.str "start-recording") →
     extractMessageType (.obj kvs) ≠ some (.str "stop-recording") →
     bufProcessFrame s (BufFrame.inputMsg (.obj kvs)) now =
       (s, [BufFrame.inputMsg (.obj kvs)])) := by
  constructor
  · unfold extractMessageType specExtractSignal
    cases h : dictGet kvs "type" with
    | none => simp [h]
    | some v =>
      cases v <;> simp [h]
      case str sv =>
        by_cases hs : sv = "client-message"
        · subst hs
          cases hd : dictGetD kvs "data" (.obj .nil) <;> simp [hd]
        · simp [hs]
  · intro h1 h2
    simp [bufProcessFrame, h1, h2]

/-- Witness for C6: the flat payload of type `ping` passes through
unchanged. -/
theorem witness_C6 :
    bufProcessFrame initBufState
      (BufFrame.inputMsg (.obj (.cons "type" (.str "ping") .nil))) "N" =
      (initBufState, [BufFrame.inputMsg (.obj (.cons "type" (.str "ping") .nil))]) :=
  (claim_C6_signal_extraction (.cons "type" (.str "ping") .nil) initBufState "N").2
    (by decide) (by decide)

/-- C7: the cleanup request converter drops a transcription frame whose
stripped text is empty, otherwise emits exactly one LLM context frame
pairing the fixed cleanup system prompt with the fragment text verbatim as
the user message; every non-transcription frame passes through unchanged. -/
theorem claim_C7_cleanup_request (fr : CFrame) :
    (∀ f, fr = CFrame.transcription f →
      (pyStrip f.text = "" → convProcessFrame fr = []) ∧
      (pyStrip f.text ≠ "" → convProcessFrame fr =
        [CFrame.context [("system", CLEANUP_SYSTEM_PROMPT), ("user", f.text)]])) ∧
    ((∀ f, fr ≠ CFrame.transcription f) → convProcessFrame fr = [fr]) := by
  constructor
  · rintro f rfl
    constructor
    · intro h
      have hne : ¬ (f.text ≠ "" ∧ pyStrip f.text ≠ "") := by
        rintro ⟨-, h2⟩; exact h2 h
      simp [convProcessFrame, hne]
    · intro h
      have ht : f.text ≠ "" := by
        intro he
        apply h
        rw [he]
        rfl
      simp [convProcessFrame, ht, h]
  · intro h
    cases fr <;> simp [convProcessFrame]
    exact absurd rfl (h _)

/-- Witness for C7: the consolidated text `"hello"` becomes one cleanup
request pairing the system prompt with the text verbatim. -/
theorem witness_C7 :
    convProcessFrame (CFrame.transcription (Fragment.mk "hello" "u" "t" none)) =
      [CFrame.context [("system", CLEANUP_SYSTEM_PROMPT), ("user", "hello")]] :=
  ((claim_C7_cleanup_request _).1 (Fragment.mk "hello" "u" "t" none) rfl).2 (by decide)

/-- C8: a start-recording signal resets the buffer to the initial state
(empty text, default `user` and no language) and emits nothing, from any
state; two consecutive start-recording signals end in that same state and
also emit nothing. -/
theorem claim_C8_start_idempotent (s : BufState) (now : String) :
    bufProcessFrame s (BufFrame.inputMsg (clientControlMsg "start-recording")) now =
      (initBufState, []) ∧
    bufRun s [BufFrame.inputMsg (clientControlMsg "start-recording"),
              BufFrame.inputMsg (clientControlMsg "start-recording")] now =
      (initBufState, []) := by
  constructor <;>
    simp [bufRun, bufProcessFrame, extractMessageType, clientControlMsg, dictGet,
      dictGetD, initBufState]

/-- C9: a stop-recording signal arriving while the stripped buffer is
empty pushes no frame and leaves the whole state — buffered whitespace,
last user id and last language — unchanged. -/
theorem claim_C9_empty_flush_keeps_state (s : BufState) (now : String)
    (h : pyStrip s.buffer = "") :
    bufProcessFrame s (BufFrame.inputMsg (clientControlMsg "stop-recording")) now =
      (s, []) := by
  simp [bufProcessFrame, extractMessageType, clientControlMsg, dictGet, dictGetD, h]

/-- Witness for C9: stop-recording on a whitespace-only buffer with alice
metadata keeps the state, whitespace included, and pushes nothing. -/
theorem witness_C9 :
    bufProcessFrame (BufState.mk "  " "alice" (some "en"))
      (BufFrame.inputMsg (clientControlMsg "stop-recording")) "N" =
      (BufState.mk "  " "alice" (some "en"), []) :=
  claim_C9_empty_flush_keeps_state (BufState.mk "  " "alice" (some "en")) "N"
    (by decide)

/-- C10: the aggregator invariant — Closed implies an empty accumulator —
holds in the initial state and is preserved by processing any frame. -/
theorem claim_C10_closed_empty_invariant :
    aggInv initAggState ∧
    ∀ (s : AggState) (f : CFrame), aggInv s → aggInv (aggProcessFrame s f).1 :=
  ⟨aggInv_init, aggInv_step⟩

/-- Witness for C10: the invariant holds after a start-marker from the
initial state. -/
theorem witness_C10 : aggInv (aggProcessFrame initAggState CFrame.llmStart).1 :=
  claim_C10_closed_empty_invariant.2 initAggState CFrame.llmStart (fun _ => rfl)

end Tambourine
